import Mathlib

set_option maxRecDepth 8000

/-!
# NYSEG Bill Analyzer — extraction engine, shallow embedding

This file embeds the extraction engine of the NYSEG bill analyzer
(`nyseg-extractor.js`, together with the record shape consumed by
`csv-export.js`) in Lean 4 and proves the specification claims about it.

JavaScript numbers are modelled as rationals (`ℚ`); all the numeric values
the engine manipulates (money, usage quantities, rates, day counts) are
exact decimals well inside the range where IEEE doubles behave like exact
arithmetic for the operations used, except for the weighted-average
division, where the spec itself speaks in exact arithmetic.

The engine works by matching fixed regular expressions against the input
text.  The regexes of the source are transliterated atom by atom into
`List Item` values and executed by a small backtracking matcher
(`matchSeq`) implementing the JavaScript regex semantics needed here:
leftmost match, greedy `+`/`*`/`?` with backtracking, lazy `*?`, ordered
alternation, word boundaries `\b`, case-insensitive literals for the `i`
flag, and `g`-flag iteration resuming at the end of the previous match.
All recursion is structural (on an explicit fuel or on the input list), so
every definition evaluates inside the kernel.
-/

namespace Nyseg

/-- Character classes appearing in the source regexes.  Classes that are
affected by the `i` flag get one constructor per flag value (`upper` for
`[A-Z]` without `i`, `letter` for `[A-Z]` under `i`, and so on). -/
inductive CC where
  | digit          -- \d
  | space          -- \s
  | wordc          -- \w
  | upper          -- [A-Z] (case-sensitive)
  | letter         -- [A-Z] under the i flag
  | letterOrSpace  -- [A-Z\s] under the i flag
  | digitDot       -- [\d.]
  | digitCommaDot  -- [\d,.]
  | anyc           -- [\s\S]
deriving DecidableEq, Repr

/-- JavaScript `\s` on the character sets that occur in extracted bill
text (ASCII whitespace). -/
def isSpaceChar (c : Char) : Bool :=
  c = ' ' || c = '\t' || c = '\n' || c = '\r' || c = '\x0b' || c = '\x0c'

def isWordChar (c : Char) : Bool :=
  c.isAlpha || c.isDigit || c = '_'

def ccMatch : CC → Char → Bool
  | .digit, c => c.isDigit
  | .space, c => isSpaceChar c
  | .wordc, c => isWordChar c
  | .upper, c => 'A' ≤ c ∧ c ≤ 'Z'
  | .letter, c => c.isAlpha
  | .letterOrSpace, c => c.isAlpha || isSpaceChar c
  | .digitDot, c => c.isDigit || c = '.'
  | .digitCommaDot, c => c.isDigit || c = ',' || c = '.'
  | .anyc, _ => true

/-- One regex atom.  Only the constructs used by the source patterns are
represented. -/
inductive Atom where
  | lit (c : Char)                          -- literal, case-sensitive
  | litCI (c : Char)                        -- literal under the i flag
  | cls (k : CC)                            -- single class char
  | plus (k : CC)                           -- greedy +
  | star (k : CC)                           -- greedy *
  | starL (k : CC)                          -- lazy *?
  | optC (c : Char)                         -- c? greedy, case-sensitive
  | optCI (c : Char)                        -- c? greedy under the i flag
  | optCls (k : CC)                         -- k? greedy
  | alts (ws : List (List Char)) (ci : Bool) -- (?:w1|w2|...), ordered
  | wb                                      -- \b
deriving DecidableEq, Repr

/-- A pattern item: an atom, or a capture-group delimiter.  The source
patterns never nest groups, and groups contain only atoms. -/
inductive Item where
  | a (x : Atom)
  | gopen
  | gclose
deriving DecidableEq, Repr

/-- Matcher state: remaining input, the character just before it (for
`\b`), completed captures in order, and the currently open capture,
stored reversed. -/
structure MState where
  rem : List Char
  prev : Option Char
  groups : List (List Char)
  cur : Option (List Char)
deriving DecidableEq, Repr

/-- Consume one character (already known to be the head of `rem`). -/
def MState.push (st : MState) (c : Char) (rest : List Char) : MState :=
  { rem := rest, prev := some c, groups := st.groups,
    cur := st.cur.map (fun g => c :: g) }

/-- Consume `n` characters from the front of the remaining input. -/
def MState.consume : Nat → MState → MState
  | 0, st => st
  | n + 1, st =>
    match st.rem with
    | [] => st
    | c :: rest => MState.consume n (st.push c rest)

/-- Length of the maximal run of characters of class `k` at the front. -/
def countRun (k : CC) : List Char → Nat
  | [] => 0
  | c :: rest => if ccMatch k c then countRun k rest + 1 else 0

def wordAt (o : Option Char) : Bool :=
  match o with
  | some c => isWordChar c
  | none => false

/-- Consume a literal character run (an alternation branch). -/
def litRun (ci : Bool) : List Char → MState → Option MState
  | [], st => some st
  | c :: cs, st =>
    match st.rem with
    | [] => none
    | c' :: rest =>
      if (if ci then c'.toLower = c.toLower else c' = c) then
        litRun ci cs (st.push c' rest)
      else none

/-- Backtracking matcher for an item sequence, anchored at the current
state.  `fuel` only needs to be `items.length`; it makes the recursion
structural so that the kernel can evaluate the matcher. -/
def matchSeq : Nat → List Item → MState → Option MState
  | _, [], st => some st
  | 0, _ :: _, _ => none
  | f + 1, .gopen :: rest, st => matchSeq f rest { st with cur := some [] }
  | f + 1, .gclose :: rest, st =>
      matchSeq f rest
        { st with groups := st.groups ++ [(st.cur.getD []).reverse], cur := none }
  | f + 1, .a x :: rest, st =>
    match x with
    | .lit c =>
      match st.rem with
      | [] => none
      | c' :: rest' =>
        if c' = c then matchSeq f rest (st.push c' rest') else none
    | .litCI c =>
      match st.rem with
      | [] => none
      | c' :: rest' =>
        if c'.toLower = c.toLower then matchSeq f rest (st.push c' rest') else none
    | .cls k =>
      match st.rem with
      | [] => none
      | c' :: rest' =>
        if ccMatch k c' then matchSeq f rest (st.push c' rest') else none
    | .plus k =>
      let n := countRun k st.rem
      (List.range n).findSome? fun i => matchSeq f rest (MState.consume (n - i) st)
    | .star k =>
      let n := countRun k st.rem
      (List.range (n + 1)).findSome? fun i => matchSeq f rest (MState.consume (n - i) st)
    | .starL k =>
      let n := countRun k st.rem
      (List.range (n + 1)).findSome? fun i => matchSeq f rest (MState.consume i st)
    | .optC c =>
      match st.rem with
      | c' :: rest' =>
        if c' = c then
          match matchSeq f rest (st.push c' rest') with
          | some r => some r
          | none => matchSeq f rest st
        else matchSeq f rest st
      | [] => matchSeq f rest st
    | .optCI c =>
      match st.rem with
      | c' :: rest' =>
        if c'.toLower = c.toLower then
          match matchSeq f rest (st.push c' rest') with
          | some r => some r
          | none => matchSeq f rest st
        else matchSeq f rest st
      | [] => matchSeq f rest st
    | .optCls k =>
      match st.rem with
      | c' :: rest' =>
        if ccMatch k c' then
          match matchSeq f rest (st.push c' rest') with
          | some r => some r
          | none => matchSeq f rest st
        else matchSeq f rest st
      | [] => matchSeq f rest st
    | .alts ws ci =>
      ws.findSome? fun w => (litRun ci w st).bind (matchSeq f rest)
    | .wb =>
      if wordAt st.prev ≠ wordAt st.rem.head? then matchSeq f rest st else none

/-- Leftmost match: try the pattern at each start position from left to
right.  Returns the captures, the input remaining after the match, and
the last consumed character. -/
def searchAt (items : List Item) : List Char → Option Char →
    Option (List (List Char) × List Char × Option Char)
  | rem, prev =>
    match matchSeq items.length items ⟨rem, prev, [], none⟩ with
    | some st => some (st.groups, st.rem, st.prev)
    | none =>
      match rem with
      | [] => none
      | c :: rest => searchAt items rest (some c)

/-- `text.match(re)` without the `g` flag: captured groups of the leftmost
match (`[1]`, `[2]`, ... of the JavaScript result array). -/
def jsMatch (items : List Item) (s : String) : Option (List String) :=
  (searchAt items s.data none).map (fun r => r.1.map List.asString)

/-- `g`-flag iteration: after each match continue at its end (advancing by
one character if the match was empty, as JavaScript does). -/
def matchAllAux (items : List Item) : Nat → List Char → Option Char → List (List String)
  | 0, _, _ => []
  | f + 1, rem, prev =>
    match searchAt items rem prev with
    | none => []
    | some (caps, rem', prev') =>
      let capsS := caps.map List.asString
      if rem'.length < rem.length then capsS :: matchAllAux items f rem' prev'
      else
        match rem' with
        | [] => [capsS]
        | c :: rest => capsS :: matchAllAux items f rest (some c)

/-- `[...text.matchAll(re)]` for a `g`-flag regex: the capture lists of
all matches. -/
def jsMatchAll (items : List Item) (s : String) : List (List String) :=
  matchAllAux items (s.length + 1) s.data none

/-! ## Numeric normalizer (`parseNumber`, `reconstructRate`, `parseInt`) -/

/-- Value of a digit run (used by the `parseFloat`/`parseInt` models). -/
def digitsToNat (l : List Char) : Nat :=
  l.foldl (fun n c => 10 * n + (c.toNat - 48)) 0

/-- Model of JavaScript `parseFloat` on the strings this program feeds it
(runs of digits, dots and signs; the inputs here never carry exponents or
`Infinity`, so those branches are omitted): skip leading whitespace, read
an optional sign, digits, and an optional fraction; `none` models `NaN`
(no digit found). -/
def parseFloatQ (s : List Char) : Option ℚ :=
  let s1 := s.dropWhile isSpaceChar
  let sgn : ℚ × List Char :=
    match s1 with
    | '-' :: t => (-1, t)
    | '+' :: t => (1, t)
    | t => (1, t)
  let ip := sgn.2.takeWhile Char.isDigit
  let s2 := sgn.2.dropWhile Char.isDigit
  match s2 with
  | '.' :: t =>
    let fp := t.takeWhile Char.isDigit
    if ip.isEmpty && fp.isEmpty then none
    else some (sgn.1 * ((digitsToNat ip : ℚ) + (digitsToNat fp : ℚ) / 10 ^ fp.length))
  | _ => if ip.isEmpty then none else some (sgn.1 * (digitsToNat ip : ℚ))

/-- `parseNumber` from the source: `0` for empty input, else strip commas,
`parseFloat`, and `|| 0` (mapping `NaN` — and `0` itself — to `0`). -/
def parseNumber (str : String) : ℚ :=
  if str.isEmpty then 0
  else (parseFloatQ (str.data.filter (fun c => c ≠ ','))).getD 0

/-- `reconstructRate` from the source: `0` for empty input, else
`parseFloat('0.' + rateDigits) || 0`. -/
def reconstructRate (rateDigits : String) : ℚ :=
  if rateDigits.isEmpty then 0
  else (parseFloatQ ('0' :: '.' :: rateDigits.data)).getD 0

/-- Model of JavaScript `parseInt` on the digit-run captures (`\d+`) this
program feeds it: the value of the leading digit run. -/
def jsParseInt (s : String) : Int :=
  (digitsToNat (s.data.takeWhile Char.isDigit) : Int)

/-! ## Date normalizer (`parseDate`) -/

/-- A JavaScript `Date` as this program constructs them: either
`new Date(year, month0, day)` with a 0-based month (possibly out of
range, normalized when converted to a timeline), or the Invalid Date
object produced when the engine cannot parse a date string. -/
inductive JSDate where
  | civil (year : Int) (month0 : Int) (day : Int)
  | invalid
deriving DecidableEq, Repr

/-- Days from the civil epoch 1970-01-01 for a (proleptic Gregorian)
year/month/day with `1 ≤ m ≤ 12`; Hinnant's `days_from_civil`. -/
def daysFromCivil (y : Int) (m : Int) (d : Int) : Int :=
  let y' := if m ≤ 2 then y - 1 else y
  let era := y'.ediv 400
  let yoe := y' - era * 400
  let doy := (153 * (m + (if m > 2 then -3 else 9)) + 2).ediv 5 + d - 1
  let doe := yoe * 365 + yoe.ediv 4 - yoe.ediv 100 + doy
  era * 146097 + doe - 719468

/-- Epoch day of a `new Date(y, m0, d)` after JavaScript's normalization
of an out-of-range month or day. -/
def epochDay (y : Int) (m0 : Int) (d : Int) : Int :=
  daysFromCivil (y + m0.ediv 12) (m0.emod 12 + 1) 1 + (d - 1)

/-- Millisecond timestamp of a date, on an idealized timeline where every
day has 86400000 ms (the service periods handled here never straddle a
DST jump in a way that changes the derived day count).  `invalid` is
unreachable on the paths where the engine does arithmetic on dates: the
service-period dates always come from the `MM/DD/YY` branch. -/
def msOfDate : JSDate → ℚ
  | .civil y m0 d => 86400000 * (epochDay y m0 d : ℚ)
  | .invalid => 0

/-- English month names, for the model of the JavaScript engine's own
parse of `"Month DD, YYYY"` strings (`new Date(dateStr)`). -/
def monthNames : List (List Char) :=
  ["january".data, "february".data, "march".data, "april".data, "may".data,
   "june".data, "july".data, "august".data, "september".data, "october".data,
   "november".data, "december".data]

/-- Modelled from the host JavaScript engine (not repository code):
`new Date(s)` for an `s` matching `(\w+)\s+(\d{1,2}),?\s+(\d{4})`.  The
engine accepts a full or three-letter English month name (case
insensitive) and yields Invalid Date otherwise.  No claim depends on the
values this produces, only on the result being non-null. -/
def jsDateFromLongString (mon dd yyyy : String) : JSDate :=
  let ml := mon.data.map Char.toLower
  match (monthNames.findIdx? fun nm => nm = ml || (ml.length = 3 && nm.take 3 = ml)) with
  | some i => .civil (jsParseInt yyyy) (i : Int) (jsParseInt dd)
  | none => .invalid

/-- `(\d{2})\/(\d{2})\/(\d{2})` from `parseDate`. -/
def reDateShort : List Item :=
  [.gopen, .a (.cls .digit), .a (.cls .digit), .gclose, .a (.lit '/'),
   .gopen, .a (.cls .digit), .a (.cls .digit), .gclose, .a (.lit '/'),
   .gopen, .a (.cls .digit), .a (.cls .digit), .gclose]

/-- `(\w+)\s+(\d{1,2}),?\s+(\d{4})` from `parseDate`. -/
def reDateLong : List Item :=
  [.gopen, .a (.plus .wordc), .gclose, .a (.plus .space),
   .gopen, .a (.cls .digit), .a (.optCls .digit), .gclose,
   .a (.optC ','), .a (.plus .space),
   .gopen, .a (.cls .digit), .a (.cls .digit), .a (.cls .digit), .a (.cls .digit), .gclose]

/-- The two-digit-year pivot applied in `parseDate`'s `MM/DD/YY` branch. -/
def expandYear (y : Int) : Int :=
  if y > 50 then 1900 + y else 2000 + y

/-- `parseDate` from the source: `null` for empty input; then the
`MM/DD/YY` branch with the `>50` pivot; then the `Month DD, YYYY` branch
delegating to the engine's own date parse; else `null`. -/
def parseDate (dateStr : String) : Option JSDate :=
  if dateStr.isEmpty then none
  else
    match jsMatch reDateShort dateStr with
    | some (mon :: dd :: yy :: _) =>
      some (.civil (expandYear (jsParseInt yy)) (jsParseInt mon - 1) (jsParseInt dd))
    | _ =>
      match jsMatch reDateLong dateStr with
      | some (mon :: dd :: yyyy :: _) => some (jsDateFromLongString mon dd yyyy)
      | _ => none

/-! ## The source regexes, transliterated atom by atom -/

/-- Case-insensitive literal run (a word inside an `i`-flag regex). -/
def wi (s : String) : List Item := s.data.map (fun c => .a (.litCI c))

/-- A capture group around a run of atoms. -/
def grp (l : List Item) : List Item := .gopen :: (l ++ [.gclose])

def sp : Item := .a (.plus .space)
def sps : Item := .a (.star .space)
def dig : Item := .a (.cls .digit)
def dPlus : Item := .a (.plus .digit)
def numCD : Item := .a (.plus .digitCommaDot)
def numD : Item := .a (.plus .digitDot)

/-- Regex `Statement\s+Date:?\s*(\w+\s+\d\x7b1,2\x7d,?\s+\d\x7b4\x7d)` (i flag). -/
def reStatementDate : List Item :=
  wi "Statement" ++ [sp] ++ wi "Date" ++ [.a (.optC ':'), sps] ++
    grp [.a (.plus .wordc), sp, dig, .a (.optCls .digit), .a (.optC ','), sp,
         dig, dig, dig, dig]

/-- Regex for the service period, two short dates joined by a dash. -/
def reServicePeriod : List Item :=
  grp [dig, dig, .a (.lit '/'), dig, dig, .a (.lit '/'), dig, dig] ++
    [sps, .a (.lit '-'), sps] ++
    grp [dig, dig, .a (.lit '/'), dig, dig, .a (.lit '/'), dig, dig]

/-- Regex `(\d+)\s*days\s+(\d+)\s*kwh` (i flag). -/
def reDaysKwh : List Item :=
  grp [dPlus] ++ [sps] ++ wi "days" ++ [sp] ++ grp [dPlus] ++ [sps] ++ wi "kwh"

/-- Regex `(\d+)\s*kwh\s+(\d+)\s*days` (i flag). -/
def reKwhDays : List Item :=
  grp [dPlus] ++ [sps] ++ wi "kwh" ++ [sp] ++ grp [dPlus] ++ [sps] ++ wi "days"

/-- Regex `Basic\s+service\s+charge\s+([\d,.]+)` (i flag). -/
def reElecBasic : List Item :=
  wi "Basic" ++ [sp] ++ wi "service" ++ [sp] ++ wi "charge" ++ [sp] ++ grp [numCD]

/-- Regex `(\d+)\s+kwh\s+(\d+)\s*@\s*0\.\s*Delivery\s+charge\s+([\d,.]+)` (i flag). -/
def reDelivery : List Item :=
  grp [dPlus] ++ [sp] ++ wi "kwh" ++ [sp] ++ grp [dPlus] ++
    [sps, .a (.lit '@'), sps] ++ wi "0." ++ [sps] ++
    wi "Delivery" ++ [sp] ++ wi "charge" ++ [sp] ++ grp [numCD]

/-- Regex `(\d+)\s+kwh\s+(\d+)\s*@\s*0\.\s*Delivery\s+charge\s*-\s*\w+\s+([\d,.]+)` (gi). -/
def reDeliveryMonth : List Item :=
  grp [dPlus] ++ [sp] ++ wi "kwh" ++ [sp] ++ grp [dPlus] ++
    [sps, .a (.lit '@'), sps] ++ wi "0." ++ [sps] ++
    wi "Delivery" ++ [sp] ++ wi "charge" ++
    [sps, .a (.lit '-'), sps, .a (.plus .wordc), sp] ++ grp [numCD]

/-- Regex for the transition charge, single-period form (i flag). -/
def reTransition : List Item :=
  grp [dPlus] ++ [sp] ++ wi "kwh" ++ [sp] ++ grp [dPlus] ++
    [sps, .a (.lit '@'), sps] ++ wi "0." ++ [sps] ++
    wi "Transition" ++ [sp] ++ wi "charge" ++ [sp] ++ grp [numCD]

/-- Regex for the transition charge, split-by-month form (gi). -/
def reTransitionMonth : List Item :=
  grp [dPlus] ++ [sp] ++ wi "kwh" ++ [sp] ++ grp [dPlus] ++
    [sps, .a (.lit '@'), sps] ++ wi "0." ++ [sps] ++
    wi "Transition" ++ [sp] ++ wi "charge" ++
    [sps, .a (.lit '-'), sps, .a (.plus .wordc), sp] ++ grp [numCD]

/-- Regex for the SBC charge, single-period form (i flag). -/
def reSbc : List Item :=
  grp [dPlus] ++ [sp] ++ wi "kwh" ++ [sp] ++ grp [dPlus] ++
    [sps, .a (.lit '@'), sps] ++ wi "0." ++ [sps] ++
    wi "SBC" ++ [sp] ++ wi "charge" ++ [sp] ++ grp [numCD]

/-- Regex for the SBC charge, split-by-month form (gi). -/
def reSbcMonth : List Item :=
  grp [dPlus] ++ [sp] ++ wi "kwh" ++ [sp] ++ grp [dPlus] ++
    [sps, .a (.lit '@'), sps] ++ wi "0." ++ [sps] ++
    wi "SBC" ++ [sp] ++ wi "charge" ++
    [sps, .a (.lit '-'), sps, .a (.plus .wordc), sp] ++ grp [numCD]

/-- Regex `Subtotal\s+Electricity\s+Delivery\s+\$?([\d,.]+)` (i flag). -/
def reSubtotalElecDelivery : List Item :=
  wi "Subtotal" ++ [sp] ++ wi "Electricity" ++ [sp] ++ wi "Delivery" ++
    [sp, .a (.optC '$')] ++ grp [numCD]

/-- Regex `Supply\s+charge\s+(\d+)\s+kwh\s+(\d+)\s*@\s*0\.\s+([\d,.]+)` (i flag):
the only electricity supply pattern; the label comes before the quantity. -/
def reSupply : List Item :=
  wi "Supply" ++ [sp] ++ wi "charge" ++ [sp] ++ grp [dPlus] ++ [sp] ++
    wi "kwh" ++ [sp] ++ grp [dPlus] ++ [sps, .a (.lit '@'), sps] ++ wi "0." ++
    [sp] ++ grp [numCD]

/-- Regex `Subtotal\s+Electricity\s+Supply\s+\$?([\d,.]+)` (i flag). -/
def reSubtotalElecSupply : List Item :=
  wi "Subtotal" ++ [sp] ++ wi "Electricity" ++ [sp] ++ wi "Supply" ++
    [sp, .a (.optC '$')] ++ grp [numCD]

/-- Regex `Subtotal\s+Electricity\s+Taxes\s+and\s+Surcharges\s+\$?([\d,.]+)` (i flag). -/
def reElecTaxes : List Item :=
  wi "Subtotal" ++ [sp] ++ wi "Electricity" ++ [sp] ++ wi "Taxes" ++ [sp] ++
    wi "and" ++ [sp] ++ wi "Surcharges" ++ [sp, .a (.optC '$')] ++ grp [numCD]

/-- Regex `Total\s+Electricity\s+Cost\s+\$?([\d,.]+)` (i flag). -/
def reElecTotal : List Item :=
  wi "Total" ++ [sp] ++ wi "Electricity" ++ [sp] ++ wi "Cost" ++
    [sp, .a (.optC '$')] ++ grp [numCD]

/-- Regex `Natural\s+gas\s+used\s*\(ccf\)\s*([\d.]+)` (i flag). -/
def reGasCcf : List Item :=
  wi "Natural" ++ [sp] ++ wi "gas" ++ [sp] ++ wi "used" ++
    [sps, .a (.lit '(')] ++ wi "ccf" ++ [.a (.lit ')'), sps] ++ grp [numD]

/-- Regex `Natural\s+gas\s+used\s*\(therm\)\s*([\d.]+)` (i flag). -/
def reGasTherm : List Item :=
  wi "Natural" ++ [sp] ++ wi "gas" ++ [sp] ++ wi "used" ++
    [sps, .a (.lit '(')] ++ wi "therm" ++ [.a (.lit ')'), sps] ++ grp [numD]

/-- Regex `Natural\s+Gas\s+Delivery\s+Charges[\s\S]*?Basic\s+service\s+charge\s+([\d,.]+)` (i). -/
def reGasBasic : List Item :=
  wi "Natural" ++ [sp] ++ wi "Gas" ++ [sp] ++ wi "Delivery" ++ [sp] ++
    wi "Charges" ++ [.a (.starL .anyc)] ++ wi "Basic" ++ [sp] ++ wi "service" ++
    [sp] ++ wi "charge" ++ [sp] ++ grp [numCD]

/-- Regex `Delivery\s+charge\s+([\d.]+)\s+therm\s+(\d+)\s*@\s*0\.\s+([\d,.]+)` (i flag). -/
def reGasDeliverySimple : List Item :=
  wi "Delivery" ++ [sp] ++ wi "charge" ++ [sp] ++ grp [numD] ++ [sp] ++
    wi "therm" ++ [sp] ++ grp [dPlus] ++ [sps, .a (.lit '@'), sps] ++ wi "0." ++
    [sp] ++ grp [numCD]

/-- Regex `Delivery\s+charge\s*-\s*\w+\s+([\d.]+)\s+therm\s+(\d+)\s*@\s*0\.\s+([\d,.]+)` (gi). -/
def reGasDeliveryMonth : List Item :=
  wi "Delivery" ++ [sp] ++ wi "charge" ++
    [sps, .a (.lit '-'), sps, .a (.plus .wordc), sp] ++ grp [numD] ++ [sp] ++
    wi "therm" ++ [sp] ++ grp [dPlus] ++ [sps, .a (.lit '@'), sps] ++ wi "0." ++
    [sp] ++ grp [numCD]

/-- Regex `Supply\s+charge\s*-\s*\w+\s+([\d.]+)\s+therm\s+(\d+)\s*@\s*0\.\s+([\d,.]+)` (gi):
the first gas supply pattern; note the mandatory month suffix after the label. -/
def reGasSupplyMonth : List Item :=
  wi "Supply" ++ [sp] ++ wi "charge" ++
    [sps, .a (.lit '-'), sps, .a (.plus .wordc), sp] ++ grp [numD] ++ [sp] ++
    wi "therm" ++ [sp] ++ grp [dPlus] ++ [sps, .a (.lit '@'), sps] ++ wi "0." ++
    [sp] ++ grp [numCD]

/-- Regex `Supply\s+charge\s*-\s*\w+\s+([\d.]+)\s+therm\s*@\s*([\d.]+)\s+([\d,.]+)` (gi):
the second gas supply pattern, rate as a plain literal decimal; the month
suffix is again mandatory. -/
def reGasSupplyStd : List Item :=
  wi "Supply" ++ [sp] ++ wi "charge" ++
    [sps, .a (.lit '-'), sps, .a (.plus .wordc), sp] ++ grp [numD] ++ [sp] ++
    wi "therm" ++ [sps, .a (.lit '@'), sps] ++ grp [numD] ++ [sp] ++ grp [numCD]

/-- Regex `Subtotal\s+Natural\s+Gas\s+Delivery\s+\$?([\d,.]+)` (i flag). -/
def reSubtotalGasDelivery : List Item :=
  wi "Subtotal" ++ [sp] ++ wi "Natural" ++ [sp] ++ wi "Gas" ++ [sp] ++
    wi "Delivery" ++ [sp, .a (.optC '$')] ++ grp [numCD]

/-- Regex `Subtotal\s+Natural\s+Gas\s+Supply\s+\$?([\d,.]+)` (i flag). -/
def reSubtotalGasSupply : List Item :=
  wi "Subtotal" ++ [sp] ++ wi "Natural" ++ [sp] ++ wi "Gas" ++ [sp] ++
    wi "Supply" ++ [sp, .a (.optC '$')] ++ grp [numCD]

/-- Regex `Subtotal\s+Natural\s+Gas\s+Taxes\s+and\s+Surcharges\s+\$?([\d,.]+)` (i flag). -/
def reGasTaxes : List Item :=
  wi "Subtotal" ++ [sp] ++ wi "Natural" ++ [sp] ++ wi "Gas" ++ [sp] ++
    wi "Taxes" ++ [sp] ++ wi "and" ++ [sp] ++ wi "Surcharges" ++
    [sp, .a (.optC '$')] ++ grp [numCD]

/-- Regex `Total\s+Natural\s+Gas\s+Cost\s+\$?([\d,.]+)` (i flag). -/
def reGasTotal : List Item :=
  wi "Total" ++ [sp] ++ wi "Natural" ++ [sp] ++ wi "Gas" ++ [sp] ++ wi "Cost" ++
    [sp, .a (.optC '$')] ++ grp [numCD]

/-- Regex `Total\s+Energy\s+Charges\s+\$?([\d,.]+)` (i flag). -/
def reTotalEnergy : List Item :=
  wi "Total" ++ [sp] ++ wi "Energy" ++ [sp] ++ wi "Charges" ++
    [sp, .a (.optC '$')] ++ grp [numCD]

/-- Regex `Amount\s+Due:?\s+\$?([\d,.]+)` (i flag). -/
def reAmountDue : List Item :=
  wi "Amount" ++ [sp] ++ wi "Due" ++ [.a (.optC ':'), sp, .a (.optC '$')] ++
    grp [numCD]

/-- Regex `(\d\x7b4\x7d-\d\x7b4\x7d-\d\x7b3\x7d)` for the account number. -/
def reAccount : List Item :=
  grp [dig, dig, dig, dig, .a (.lit '-'), dig, dig, dig, dig, .a (.lit '-'),
       dig, dig, dig]

/-- Regex `\b([A-Z][A-Z]+\s+[A-Z][A-Z]+)\b` (g flag) for the customer name. -/
def reName : List Item :=
  [.a .wb] ++
    grp [.a (.cls .upper), .a (.plus .upper), sp, .a (.cls .upper), .a (.plus .upper)] ++
    [.a .wb]

/-- Street-suffix alternation of the service-address regex. -/
def streetSuffixes : List (List Char) :=
  ["ST".data, "RD".data, "AVE".data, "DR".data, "LN".data, "CT".data,
   "WAY".data, "BLVD".data, "PL".data, "CIR".data]

/-- Regex for the service address (i flag):
`(\d+\s+[A-Z][A-Z\s]+(?:ST|RD|AVE|DR|LN|CT|WAY|BLVD|PL|CIR)\.?),?\s*([A-Z][A-Z]+,?\s*NY\s*\d\x7b5\x7d)`. -/
def reAddress : List Item :=
  grp ([dPlus, sp, .a (.cls .letter), .a (.plus .letterOrSpace),
        .a (.alts streetSuffixes true), .a (.optC '.')]) ++
    [.a (.optC ','), sps] ++
    grp ([.a (.cls .letter), .a (.plus .letter), .a (.optC ','), sps] ++
      wi "NY" ++ [sps, dig, dig, dig, dig, dig])

/-! ## Data model -/

/-- The `servicePeriod` sub-object (the source field `end` is a Lean
keyword and is embedded as `endD`). -/
structure ServicePeriod where
  start : Option JSDate
  endD : Option JSDate
  days : ℚ
deriving DecidableEq, Repr

structure ElectricityData where
  usage : ℚ
  basicServiceCharge : ℚ
  deliveryRate : ℚ
  deliveryCharge : ℚ
  transitionRate : ℚ
  transitionCharge : ℚ
  sbcRate : ℚ
  sbcCharge : ℚ
  supplyRate : ℚ
  supplyCharge : ℚ
  totalDelivery : ℚ
  totalSupply : ℚ
  totalTaxes : ℚ
  totalCost : ℚ
deriving DecidableEq, Repr

structure GasData where
  usageCcf : ℚ
  usageTherms : ℚ
  basicServiceCharge : ℚ
  deliveryRate : ℚ
  deliveryCharge : ℚ
  supplyRate : ℚ
  supplyCharge : ℚ
  totalDelivery : ℚ
  totalSupply : ℚ
  totalTaxes : ℚ
  totalCost : ℚ
deriving DecidableEq, Repr

/-- The record literal initialized at the top of `extractBillData`.  Its
field set is exactly the source's: there is no `miscellaneousCharges`
field. -/
structure BillData where
  fileName : String
  statementDate : Option JSDate
  servicePeriod : ServicePeriod
  electricity : ElectricityData
  gas : GasData
  totalEnergyCharges : ℚ
  amountDue : ℚ
deriving DecidableEq, Repr

/-- The top-level keys of the `data` object literal in `extractBillData`
(in source order).  The function never adds keys afterwards. -/
def billTopLevelKeys : List String :=
  ["fileName", "statementDate", "servicePeriod", "electricity", "gas",
   "totalEnergyCharges", "amountDue"]

/-- The bill-record keys read by the totals section of the CSV row
builder in `csv-export.js` (`generateCSV`), in source order. -/
def csvTotalsKeys : List String :=
  ["miscellaneousCharges", "totalEnergyCharges", "amountDue"]

/-! ## Field extractors and assembler -/

/-- The repeated block `match re → field = parseNumber(match[1]) | 0`
used by every single-label numeric field. -/
def labeledNumber (re : List Item) (text : String) : ℚ :=
  match jsMatch re text with
  | some m => parseNumber (m.headD "")
  | none => 0

def statementDateOf (text : String) : Option JSDate :=
  match jsMatch reStatementDate text with
  | some m => parseDate (m.headD "")
  | none => none

def servicePeriodDatesOf (text : String) : Option JSDate × Option JSDate :=
  match jsMatch reServicePeriod text with
  | some m => (parseDate (m.headD ""), parseDate (m[1]?.getD ""))
  | none => (none, none)

/-- The days/kWh block: `(\d+) days (\d+) kwh` first, then the swapped
order; returns `(days, usage)`. -/
def daysUsageOf (text : String) : ℚ × ℚ :=
  match jsMatch reDaysKwh text with
  | some m => ((jsParseInt (m.headD "") : ℚ), (jsParseInt (m[1]?.getD "") : ℚ))
  | none =>
    match jsMatch reKwhDays text with
    | some m => ((jsParseInt (m[1]?.getD "") : ℚ), (jsParseInt (m.headD "") : ℚ))
    | none => (0, 0)

/-- The Multi-Month Reconciler: the accumulation loop shared verbatim by
the five repeated-month blocks of the source, on `(quantity, rate,
charge)` triples.  Returns the usage-weighted rate (`0` when the total
quantity is not positive) and the summed charge. -/
def reconcileTriples (l : List (ℚ × ℚ × ℚ)) : ℚ × ℚ :=
  let t := l.foldl
    (fun acc m => (acc.1 + m.1, acc.2.1 + m.1 * m.2.1, acc.2.2 + m.2.2))
    ((0 : ℚ), (0 : ℚ), (0 : ℚ))
  (if t.1 > 0 then t.2.1 / t.1 else 0, t.2.2)

/-- Capture list of an electricity repeated-month match, parsed as in the
source loop: `parseInt` quantity, reconstructed rate, `parseNumber` charge. -/
def elecMonthTriple (m : List String) : ℚ × ℚ × ℚ :=
  ((jsParseInt (m.headD "") : ℚ), reconstructRate (m[1]?.getD ""),
   parseNumber (m[2]?.getD ""))

/-- Capture list of a gas repeated-month match (split-digit rate):
`parseNumber` quantity, reconstructed rate, `parseNumber` charge. -/
def gasMonthTriple (m : List String) : ℚ × ℚ × ℚ :=
  (parseNumber (m.headD ""), reconstructRate (m[1]?.getD ""),
   parseNumber (m[2]?.getD ""))

/-- Capture list of a gas supply plain-decimal-rate match: all three
fields via `parseNumber`. -/
def gasStdTriple (m : List String) : ℚ × ℚ × ℚ :=
  (parseNumber (m.headD ""), parseNumber (m[1]?.getD ""),
   parseNumber (m[2]?.getD ""))

/-- The two-tier chain shared by electricity delivery, transition, SBC
and gas delivery: single-period pattern first; if the resulting rate is
`0`, the repeated-month pattern through the Reconciler (when it has any
match).  Returns `(rate, charge)`. -/
def twoTier (reSingle reMonth : List Item)
    (toTriple : List String → ℚ × ℚ × ℚ) (text : String) : ℚ × ℚ :=
  let first : ℚ × ℚ :=
    match jsMatch reSingle text with
    | some m => (reconstructRate (m[1]?.getD ""), parseNumber (m[2]?.getD ""))
    | none => (0, 0)
  if first.1 = 0 then
    let ms := jsMatchAll reMonth text
    if ms.isEmpty then first else reconcileTriples (ms.map toTriple)
  else first

/-- The electricity supply block: a single pattern, no fallback. -/
def elecSupplyFields (text : String) : ℚ × ℚ :=
  match jsMatch reSupply text with
  | some m => (reconstructRate (m[1]?.getD ""), parseNumber (m[2]?.getD ""))
  | none => (0, 0)

/-- The gas supply chain: the split-digit repeated-month pattern through
the Reconciler; if the resulting rate is `0`, the plain-decimal
repeated-month pattern through the Reconciler.  Both patterns require the
month suffix. -/
def gasSupplyFields (text : String) : ℚ × ℚ :=
  let first : ℚ × ℚ :=
    let ms := jsMatchAll reGasSupplyMonth text
    if ms.isEmpty then (0, 0) else reconcileTriples (ms.map gasMonthTriple)
  if first.1 = 0 then
    let ms2 := jsMatchAll reGasSupplyStd text
    if ms2.isEmpty then first else reconcileTriples (ms2.map gasStdTriple)
  else first

/-- The final block of `extractBillData`: when no explicit days field was
found and both period dates are known, derive the day count as
`Math.ceil(Math.abs(end - start) / 86400000)`. -/
def deriveDays (days0 : ℚ) (s e : Option JSDate) : ℚ :=
  match s, e with
  | some sd, some ed =>
    if days0 = 0 then
      ((Int.ceil (|msOfDate ed - msOfDate sd| / 86400000) : ℤ) : ℚ)
    else days0
  | _, _ => days0

/-- `extractBillData` from the source: one pass per field block over the
whole text, assembled into the record.  The blocks write disjoint fields,
so the sequential mutation of the source is embedded as independent
per-block functions. -/
def extractBillData (text : String) (fileName : String) : BillData :=
  let spDates := servicePeriodDatesOf text
  let du := daysUsageOf text
  let elecDel := twoTier reDelivery reDeliveryMonth elecMonthTriple text
  let elecTrans := twoTier reTransition reTransitionMonth elecMonthTriple text
  let elecSbc := twoTier reSbc reSbcMonth elecMonthTriple text
  let elecSup := elecSupplyFields text
  let gasDel := twoTier reGasDeliverySimple reGasDeliveryMonth gasMonthTriple text
  let gasSup := gasSupplyFields text
  { fileName := fileName
    statementDate := statementDateOf text
    servicePeriod :=
      { start := spDates.1
        endD := spDates.2
        days := deriveDays du.1 spDates.1 spDates.2 }
    electricity :=
      { usage := du.2
        basicServiceCharge := labeledNumber reElecBasic text
        deliveryRate := elecDel.1
        deliveryCharge := elecDel.2
        transitionRate := elecTrans.1
        transitionCharge := elecTrans.2
        sbcRate := elecSbc.1
        sbcCharge := elecSbc.2
        supplyRate := elecSup.1
        supplyCharge := elecSup.2
        totalDelivery := labeledNumber reSubtotalElecDelivery text
        totalSupply := labeledNumber reSubtotalElecSupply text
        totalTaxes := labeledNumber reElecTaxes text
        totalCost := labeledNumber reElecTotal text }
    gas :=
      { usageCcf := labeledNumber reGasCcf text
        usageTherms := labeledNumber reGasTherm text
        basicServiceCharge := labeledNumber reGasBasic text
        deliveryRate := gasDel.1
        deliveryCharge := gasDel.2
        supplyRate := gasSup.1
        supplyCharge := gasSup.2
        totalDelivery := labeledNumber reSubtotalGasDelivery text
        totalSupply := labeledNumber reSubtotalGasSupply text
        totalTaxes := labeledNumber reGasTaxes text
        totalCost := labeledNumber reGasTotal text }
    totalEnergyCharges := labeledNumber reTotalEnergy text
    amountDue := labeledNumber reAmountDue text }

/-! ## Account-identity extraction -/

structure AccountInfo where
  accountNumber : String
  customerName : String
  serviceAddress : String
deriving DecidableEq, Repr

/-- The exclusion vocabulary of the customer-name filter, verbatim. -/
def excludeWords : List String :=
  ["ST", "RD", "AVE", "DR", "LN", "CT", "WAY", "BLVD", "PL", "CIR",
   "DRIVE", "STREET", "ROAD", "AVENUE", "LANE", "COURT",
   "BOSTON", "LANSING", "NY", "MA",
   "NYSEG", "SERVICE", "ACCOUNT", "STATEMENT", "BUDGET", "BILLING",
   "PAYMENT", "AUTOPAY", "RESIDENTIAL", "SUMMARY", "BALANCE", "PROJECT",
   "SHARE", "HEATING", "FUND", "PAGE", "BANK", "ENERGY", "ELECTRIC",
   "NATURAL", "GAS", "DELIVERY", "SUPPLY", "TOTAL", "AMOUNT"]

/-- JavaScript `split(/\s+/)`: tokens between maximal whitespace runs,
with an empty leading token when the string starts with whitespace and an
empty trailing token when it ends with one. -/
def splitWsGo : Bool → List Char → List Char → List (List Char)
  | skipping, [], acc => if skipping then [[]] else [acc.reverse]
  | skipping, c :: rest, acc =>
    if isSpaceChar c then
      if skipping then splitWsGo true rest []
      else acc.reverse :: splitWsGo true rest []
    else splitWsGo false rest (c :: acc)

def splitWsJs (s : String) : List String :=
  (splitWsGo false s.data []).map List.asString

/-- Model of `String.prototype.trim` on ASCII whitespace. -/
def jsTrim (s : String) : String :=
  (((s.data.dropWhile isSpaceChar).reverse.dropWhile isSpaceChar).reverse).asString

/-- The per-match test of the customer-name loop: no word excluded or
shorter than two characters, and exactly two words. -/
def nameOk (m : String) : Bool :=
  let words := splitWsJs m
  (!(words.any fun w => excludeWords.contains w || decide (w.length < 2)))
    && words.length == 2

/-- The customer-name loop: the first full match passing `nameOk`;
`break` on success. -/
def firstCustomerName : List String → String
  | [] => ""
  | m :: rest => if nameOk m then m else firstCustomerName rest

/-- `extractAccountInfo` from the source. -/
def extractAccountInfo (text : String) : AccountInfo :=
  { accountNumber :=
      match jsMatch reAccount text with
      | some m => jsTrim (m.headD "")
      | none => ""
    customerName :=
      firstCustomerName ((jsMatchAll reName text).map (fun m => m.headD ""))
    serviceAddress :=
      match jsMatch reAddress text with
      | some m => jsTrim ((m.headD "") ++ ", " ++ (m[1]?.getD ""))
      | none => "" }

/-! ## Spec-side model for the customer-name claim -/

/-- A token of the shape the source pattern requires per name word: at
least two characters, all uppercase letters. -/
def isCapsToken (w : String) : Bool :=
  decide (w.length ≥ 2) && w.data.all (fun c => 'A' ≤ c ∧ c ≤ 'Z')

/-- Scan adjacent token pairs in document order for the first pair of
all-caps tokens with neither token excluded. -/
def specFirstPair : List String → String
  | w1 :: w2 :: rest =>
    if isCapsToken w1 && isCapsToken w2 &&
        !excludeWords.contains w1 && !excludeWords.contains w2 then
      w1 ++ " " ++ w2
    else specFirstPair (w2 :: rest)
  | _ => ""

/-- Formalization of claim C9 from the spec's words (deliberately NOT
from the source): the customer name is the first pair, in document order,
of two consecutive all-caps tokens of the text such that neither token is
in the exclusion vocabulary; empty when no such pair exists.  Tokens are
the whitespace-separated words of the text. -/
def specCustomerName (text : String) : String :=
  specFirstPair (splitWsJs text)

/-! ## Concrete inputs used by the witnesses and counterexamples -/

/-- A text holding, for each of the delivery, transition and SBC fields,
one single-period line whose split rate digits are all zero and one
split-by-month line. -/
def tC2 : String :=
  "5 kwh 000 @ 0. Delivery charge 1 2 kwh 05 @ 0. Delivery charge - Apr 3 " ++
  "7 kwh 000 @ 0. Transition charge 2 3 kwh 02 @ 0. Transition charge - Apr 4 " ++
  "9 kwh 000 @ 0. SBC charge 5 4 kwh 01 @ 0. SBC charge - May 6"

/-- A gas supply split-digit charge line without a per-month suffix. -/
def tC4 : String := "Supply charge 44.2 therm 73822 @ 0. 32.63"

/-- A gas supply split-digit charge line with a per-month suffix. -/
def tC4b : String := "Supply charge - Apr 2 therm 5 @ 0. 3"

/-- A month-suffixed split-digit gas supply line whose rate digits are
all zero, followed by a month-suffixed plain-decimal gas supply line:
exercises the second tier of the gas supply chain. -/
def tC4c : String :=
  "Supply charge - Apr 2 therm 000 @ 0. 3 Supply charge - May 2 therm @ 0.5 4"

/-- A service period with no explicit days field. -/
def tC7 : String := "01/09/25 - 02/07/25"

/-- A text whose only customer-name-shaped pairs start with an excluded
token. -/
def tC9 : String := "NYSEG JOHN SMITH"

/-- An electricity supply charge line in per-month form only. -/
def tC10 : String := "Supply charge - Apr 1297 kwh 07894 @ 0. 102.39"

/-! ## Helper lemmas -/

theorem reconcile_foldl (l : List (ℚ × ℚ × ℚ)) (a b c : ℚ) :
    l.foldl (fun acc m => (acc.1 + m.1, acc.2.1 + m.1 * m.2.1, acc.2.2 + m.2.2))
      (a, b, c) =
      (a + (l.map fun x => x.1).sum,
       b + (l.map fun x => x.1 * x.2.1).sum,
       c + (l.map fun x => x.2.2).sum) := by
  induction l generalizing a b c with
  | nil => simp
  | cons x xs ih =>
    simp only [List.foldl_cons, ih, List.map_cons, List.sum_cons]
    refine Prod.ext (by ring) (Prod.ext (by ring) (by ring))

theorem firstCustomerName_eq_find (l : List String) :
    firstCustomerName l = (l.find? nameOk).getD "" := by
  induction l with
  | nil => rfl
  | cons m rest ih =>
    by_cases h : nameOk m
    · simp [firstCustomerName, List.find?_cons_of_pos, h]
    · simp only [firstCustomerName, if_neg h, ih,
        List.find?_cons_of_neg _ (by simpa using h)]

/-- Behaviour of the shared two-tier chain when the single-period pattern
matches and the repeated-month pattern has at least one match. -/
theorem twoTier_spec (re1 re2 : List Item) (tt : List String → ℚ × ℚ × ℚ)
    (text k dg c : String) (ms : List (List String))
    (hs : jsMatch re1 text = some [k, dg, c])
    (hm : jsMatchAll re2 text = ms) (hne : ms ≠ []) :
    twoTier re1 re2 tt text =
      if reconstructRate dg ≠ 0 then (reconstructRate dg, parseNumber c)
      else reconcileTriples (ms.map tt) := by
  unfold twoTier
  rw [hs, hm]
  cases ms with
  | nil => exact absurd rfl hne
  | cons a as =>
    by_cases h : reconstructRate dg = 0 <;>
      simp [h]

/-! ## Claim theorems -/

/-- C1: `extractBillData` is a total function of the input text and file
name (the embedding is a plain function, so it cannot raise), and on the
empty string it returns the all-default record: every numeric field `0`,
every date field null. -/
theorem C1_empty_input_all_default (fn : String) :
    extractBillData "" fn =
      { fileName := fn
        statementDate := none
        servicePeriod := { start := none, endD := none, days := 0 }
        electricity :=
          { usage := 0, basicServiceCharge := 0, deliveryRate := 0,
            deliveryCharge := 0, transitionRate := 0, transitionCharge := 0,
            sbcRate := 0, sbcCharge := 0, supplyRate := 0, supplyCharge := 0,
            totalDelivery := 0, totalSupply := 0, totalTaxes := 0, totalCost := 0 }
        gas :=
          { usageCcf := 0, usageTherms := 0, basicServiceCharge := 0,
            deliveryRate := 0, deliveryCharge := 0, supplyRate := 0,
            supplyCharge := 0, totalDelivery := 0, totalSupply := 0,
            totalTaxes := 0, totalCost := 0 }
        totalEnergyCharges := 0
        amountDue := 0 } := rfl

/-- C2: for each of the electricity delivery, transition and SBC fields,
when the single-period pattern matches with rate digits `dg` and the
repeated-month pattern also has matches, the single-period rate and
charge are kept iff the reconstructed rate is non-zero; when that rate is
exactly `0` the Reconciler result over the month matches is used for both
the rate and the charge. -/
theorem C2_single_period_preferred_iff_rate_nonzero (text fn : String) :
    (∀ k dg c ms, jsMatch reDelivery text = some [k, dg, c] →
      jsMatchAll reDeliveryMonth text = ms → ms ≠ [] →
      ((extractBillData text fn).electricity.deliveryRate,
        (extractBillData text fn).electricity.deliveryCharge) =
        if reconstructRate dg ≠ 0 then (reconstructRate dg, parseNumber c)
        else reconcileTriples (ms.map elecMonthTriple)) ∧
    (∀ k dg c ms, jsMatch reTransition text = some [k, dg, c] →
      jsMatchAll reTransitionMonth text = ms → ms ≠ [] →
      ((extractBillData text fn).electricity.transitionRate,
        (extractBillData text fn).electricity.transitionCharge) =
        if reconstructRate dg ≠ 0 then (reconstructRate dg, parseNumber c)
        else reconcileTriples (ms.map elecMonthTriple)) ∧
    (∀ k dg c ms, jsMatch reSbc text = some [k, dg, c] →
      jsMatchAll reSbcMonth text = ms → ms ≠ [] →
      ((extractBillData text fn).electricity.sbcRate,
        (extractBillData text fn).electricity.sbcCharge) =
        if reconstructRate dg ≠ 0 then (reconstructRate dg, parseNumber c)
        else reconcileTriples (ms.map elecMonthTriple)) := by
  refine ⟨fun k dg c ms hs hm hne => ?_, fun k dg c ms hs hm hne => ?_,
    fun k dg c ms hs hm hne => ?_⟩
  · have hp : (extractBillData text fn).electricity.deliveryRate =
        (twoTier reDelivery reDeliveryMonth elecMonthTriple text).1 := rfl
    have hq : (extractBillData text fn).electricity.deliveryCharge =
        (twoTier reDelivery reDeliveryMonth elecMonthTriple text).2 := rfl
    rw [hp, hq, twoTier_spec reDelivery reDeliveryMonth elecMonthTriple text
      k dg c ms hs hm hne]
  · have hp : (extractBillData text fn).electricity.transitionRate =
        (twoTier reTransition reTransitionMonth elecMonthTriple text).1 := rfl
    have hq : (extractBillData text fn).electricity.transitionCharge =
        (twoTier reTransition reTransitionMonth elecMonthTriple text).2 := rfl
    rw [hp, hq, twoTier_spec reTransition reTransitionMonth elecMonthTriple text
      k dg c ms hs hm hne]
  · have hp : (extractBillData text fn).electricity.sbcRate =
        (twoTier reSbc reSbcMonth elecMonthTriple text).1 := rfl
    have hq : (extractBillData text fn).electricity.sbcCharge =
        (twoTier reSbc reSbcMonth elecMonthTriple text).2 := rfl
    rw [hp, hq, twoTier_spec reSbc reSbcMonth elecMonthTriple text
      k dg c ms hs hm hne]

/-- C2 witness: on a concrete text holding, for each of the three fields,
a zero-rate single-period line and a month line, the Reconciler results
are used. -/
theorem C2_single_period_preferred_iff_rate_nonzero_witness :
    ((extractBillData tC2 "b.pdf").electricity.deliveryRate,
      (extractBillData tC2 "b.pdf").electricity.deliveryCharge) = (1/20, 3) ∧
    ((extractBillData tC2 "b.pdf").electricity.transitionRate,
      (extractBillData tC2 "b.pdf").electricity.transitionCharge) = (1/50, 4) ∧
    ((extractBillData tC2 "b.pdf").electricity.sbcRate,
      (extractBillData tC2 "b.pdf").electricity.sbcCharge) = (1/100, 6) := by
  obtain ⟨h1, h2, h3⟩ := C2_single_period_preferred_iff_rate_nonzero tC2 "b.pdf"
  have hz : reconstructRate "000" = 0 := by
    simp +decide [reconstructRate, parseFloatQ, digitsToNat]
  refine ⟨?_, ?_, ?_⟩
  · rw [h1 "5" "000" "1" [["2", "05", "3"]] rfl rfl (by simp), if_neg (by simp [hz])]
    simp +decide [reconcileTriples, elecMonthTriple, parseNumber, reconstructRate,
      parseFloatQ, digitsToNat, jsParseInt]
    try norm_num
  · rw [h2 "7" "000" "2" [["3", "02", "4"]] rfl rfl (by simp), if_neg (by simp [hz])]
    simp +decide [reconcileTriples, elecMonthTriple, parseNumber, reconstructRate,
      parseFloatQ, digitsToNat, jsParseInt]
    try norm_num
  · rw [h3 "9" "000" "5" [["4", "01", "6"]] rfl rfl (by simp), if_neg (by simp [hz])]
    simp +decide [reconcileTriples, elecMonthTriple, parseNumber, reconstructRate,
      parseFloatQ, digitsToNat, jsParseInt]
    try norm_num

/-- C3: on every non-empty list of per-month (quantity, rate, charge)
triples with non-negative quantities (as all matched quantities are), the
Reconciler yields the quantity-weighted mean rate — `0` when the total
quantity is `0` — and the exact sum of the charges, never recomputed from
the averaged rate. -/
theorem C3_reconciler_weighted_mean_and_exact_sum
    (l : List (ℚ × ℚ × ℚ)) (hne : l ≠ []) (hq : ∀ x ∈ l, 0 ≤ x.1) :
    reconcileTriples l =
      (if (l.map fun x => x.1).sum = 0 then 0
       else (l.map fun x => x.1 * x.2.1).sum / (l.map fun x => x.1).sum,
       (l.map fun x => x.2.2).sum) := by
  simp only [reconcileTriples, reconcile_foldl, zero_add, Prod.mk.injEq]
  have hq0 : 0 ≤ (l.map fun x => x.1).sum := by
    refine List.sum_nonneg fun b hb => ?_
    obtain ⟨x, hx, rfl⟩ := List.mem_map.mp hb
    exact hq x hx
  refine ⟨?_, trivial⟩
  by_cases h : (l.map fun x => x.1).sum = 0
  · rw [if_pos h, h]
    norm_num
  · rw [if_neg h, if_pos (lt_of_le_of_ne hq0 (Ne.symm h))]

/-- C3 witness: the spec's example, triples (100, 0.05, 5.00) and
(200, 0.08, 16.00) yield rate 0.07 and charge 21.00 exactly. -/
theorem C3_reconciler_weighted_mean_and_exact_sum_witness :
    reconcileTriples [(100, 1/20, 5), (200, 2/25, 16)] = (7/100, 21) := by
  rw [C3_reconciler_weighted_mean_and_exact_sum
    [(100, 1/20, 5), (200, 2/25, 16)] (by simp)
    (by rintro x hx; simp at hx; rcases hx with rfl | rfl <;> norm_num)]
  norm_num

/-- C4 counterexample: a gas supply split-digit charge line WITHOUT a
per-month suffix does not set the gas supply fields — both stay `0`, even
though the line's rate digits and charge are non-zero — because both gas
supply patterns require the month suffix; there is no single-period tier
for gas supply. -/
theorem C4_counterexample_no_single_period_gas_supply :
    (extractBillData tC4 "g.pdf").gas.supplyRate = 0 ∧
    (extractBillData tC4 "g.pdf").gas.supplyCharge = 0 ∧
    reconstructRate "73822" ≠ 0 ∧ parseNumber "32.63" ≠ 0 := by
  refine ⟨rfl, rfl, ?_, ?_⟩ <;>
    · simp +decide [reconstructRate, parseNumber, parseFloatQ, digitsToNat]
      try norm_num

/-- C4 amended: the gas supply field is resolved by a two-tier chain of
repeated-month patterns only, so the fields are a function of the two
month-suffixed match lists alone — a split-digit line without a per-month
suffix never sets them.  The four conjuncts characterize every case of
the chain: (1) when the split-digit month pattern has matches whose
reconciled rate is non-zero, the fields are that Reconciler result;
(2) when that first tier resolves to rate `0` (no matches, or a zero
reconciled rate) and the plain-decimal month pattern has matches, the
fields are the Reconciler result over those; (3) when the first tier has
matches with reconciled rate `0` and the second tier has none, the first
tier's result is kept; (4) when neither month pattern matches, both
fields stay `0`. -/
theorem C4_gas_supply_month_chain (text fn : String) (ms ms2 : List (List String))
    (hm : jsMatchAll reGasSupplyMonth text = ms)
    (hm2 : jsMatchAll reGasSupplyStd text = ms2) :
    (ms ≠ [] → (reconcileTriples (ms.map gasMonthTriple)).1 ≠ 0 →
      ((extractBillData text fn).gas.supplyRate,
        (extractBillData text fn).gas.supplyCharge) =
        reconcileTriples (ms.map gasMonthTriple)) ∧
    ((ms = [] ∨ (reconcileTriples (ms.map gasMonthTriple)).1 = 0) → ms2 ≠ [] →
      ((extractBillData text fn).gas.supplyRate,
        (extractBillData text fn).gas.supplyCharge) =
        reconcileTriples (ms2.map gasStdTriple)) ∧
    (ms ≠ [] → (reconcileTriples (ms.map gasMonthTriple)).1 = 0 → ms2 = [] →
      ((extractBillData text fn).gas.supplyRate,
        (extractBillData text fn).gas.supplyCharge) =
        reconcileTriples (ms.map gasMonthTriple)) ∧
    (ms = [] → ms2 = [] →
      ((extractBillData text fn).gas.supplyRate,
        (extractBillData text fn).gas.supplyCharge) = (0, 0)) := by
  have hfe : ((extractBillData text fn).gas.supplyRate,
      (extractBillData text fn).gas.supplyCharge) = gasSupplyFields text := rfl
  rw [hfe]
  unfold gasSupplyFields
  rw [hm, hm2]
  refine ⟨fun hne hr => ?_, fun hor hne2 => ?_, fun hne hr0 he2 => ?_,
    fun he he2 => ?_⟩
  · have hie : ms.isEmpty = false := by
      cases ms with
      | nil => exact absurd rfl hne
      | cons a as => rfl
    simp only [hie, Bool.false_eq_true, if_false]
    rw [if_neg hr]
  · have hie2 : ms2.isEmpty = false := by
      cases ms2 with
      | nil => exact absurd rfl hne2
      | cons a as => rfl
    by_cases hms : ms = []
    · subst hms
      simp [hie2]
    · have hr0 : (reconcileTriples (ms.map gasMonthTriple)).1 = 0 :=
        hor.resolve_left hms
      have hie : ms.isEmpty = false := by
        cases ms with
        | nil => exact absurd rfl hms
        | cons a as => rfl
      simp only [hie, Bool.false_eq_true, if_false]
      rw [if_pos hr0]
      simp only [hie2, Bool.false_eq_true, if_false]
  · subst he2
    have hie : ms.isEmpty = false := by
      cases ms with
      | nil => exact absurd rfl hne
      | cons a as => rfl
    simp only [hie, Bool.false_eq_true, if_false]
    rw [if_pos hr0]
    simp
  · subst he
    subst he2
    simp

/-- C4 amended witness: the split-digit tier sets the fields on a
month-suffixed split-digit line; with a zero-rate split-digit line the
plain-decimal tier sets them; with no month-suffixed line at all (the
counterexample text) both stay `0`. -/
theorem C4_gas_supply_month_chain_witness :
    ((extractBillData tC4b "g2.pdf").gas.supplyRate,
      (extractBillData tC4b "g2.pdf").gas.supplyCharge) = (1/2, 3) ∧
    ((extractBillData tC4c "g3.pdf").gas.supplyRate,
      (extractBillData tC4c "g3.pdf").gas.supplyCharge) = (1/2, 4) ∧
    ((extractBillData tC4 "g.pdf").gas.supplyRate,
      (extractBillData tC4 "g.pdf").gas.supplyCharge) = (0, 0) := by
  refine ⟨?_, ?_, ?_⟩
  · have hv : reconcileTriples ([["2", "5", "3"]].map gasMonthTriple) = (1/2, 3) := by
      simp +decide [reconcileTriples, gasMonthTriple, parseNumber, reconstructRate,
        parseFloatQ, digitsToNat]
      try norm_num
    have h := (C4_gas_supply_month_chain tC4b "g2.pdf" [["2", "5", "3"]] [] rfl rfl).1
      (by simp) (by rw [hv]; norm_num)
    rw [h, hv]
  · have hz : (reconcileTriples ([["2", "000", "3"]].map gasMonthTriple)).1 = 0 := by
      simp +decide [reconcileTriples, gasMonthTriple, parseNumber, reconstructRate,
        parseFloatQ, digitsToNat]
      try norm_num
    have hv2 : reconcileTriples ([["2", "0.5", "4"]].map gasStdTriple) = (1/2, 4) := by
      simp +decide [reconcileTriples, gasStdTriple, parseNumber,
        parseFloatQ, digitsToNat]
      try norm_num
    have h := (C4_gas_supply_month_chain tC4c "g3.pdf" [["2", "000", "3"]]
      [["2", "0.5", "4"]] rfl rfl).2.1 (Or.inr hz) (by simp)
    rw [h, hv2]
  · exact (C4_gas_supply_month_chain tC4 "g.pdf" [] [] rfl rfl).2.2.2 rfl rfl

/-- C5: on digit-run inputs (the only inputs the extraction chains feed
it), `reconstructRate digits` equals `parseNumber ("0." ++ digits)`,
which is the decimal with the given fractional digits;
`reconstructRate ""` is `0` and `reconstructRate "07894"` is `0.07894`. -/
theorem C5_reconstructRate_eq_parseNumber (s : String)
    (hd : ∀ c ∈ s.data, c.isDigit) :
    reconstructRate s = parseNumber ("0." ++ s) ∧
    reconstructRate "" = 0 ∧
    reconstructRate "07894" = 7894 / 100000 := by
  refine ⟨?_, rfl, by simp +decide [reconstructRate, parseFloatQ, digitsToNat]; norm_num⟩
  have hdata : ("0." ++ s).data = '0' :: '.' :: s.data := by
    simp [String.data_append]
  by_cases he : s = ""
  · subst he
    simp +decide [reconstructRate, parseNumber, parseFloatQ, digitsToNat]
  · have hne : ¬("0." ++ s).isEmpty := by
      simp only [String.isEmpty_iff]
      intro hcon
      have := congrArg String.data hcon
      simp [hdata] at this
    have hsne : ¬s.isEmpty := by
      simpa only [String.isEmpty_iff] using he
    have hfilter : ('0' :: '.' :: s.data).filter (fun c => decide (c ≠ ',')) =
        '0' :: '.' :: s.data := by
      refine List.filter_eq_self.mpr fun c hc => ?_
      simp only [List.mem_cons] at hc
      rcases hc with rfl | rfl | hc
      · decide
      · decide
      · have hdc := hd c hc
        simp only [decide_eq_true_eq]
        intro hcomma
        rw [hcomma] at hdc
        exact absurd hdc (by decide)
    unfold reconstructRate parseNumber
    rw [if_neg hsne, if_neg hne, hdata, hfilter]

/-- C5 witness: the general identity at the digit run "07894", together
with the two concrete values. -/
theorem C5_reconstructRate_eq_parseNumber_witness :
    reconstructRate "07894" = parseNumber ("0." ++ "07894") ∧
    reconstructRate "" = 0 ∧
    reconstructRate "07894" = 7894 / 100000 :=
  C5_reconstructRate_eq_parseNumber "07894" (by decide)

/-- C6: `parseDate` on `MM/DD/YY` expands the two-digit year with the
fixed `>50` pivot — `"01/09/25"` gives 2025-01-09, year token `"51"`
gives 1951, `"49"` gives 2049 — and returns null when neither the
`MM/DD/YY` nor the `Month DD, YYYY` pattern matches. -/
theorem C6_parseDate_pivot_and_null :
    parseDate "01/09/25" = some (.civil 2025 0 9) ∧
    parseDate "12/31/51" = some (.civil 1951 11 31) ∧
    parseDate "12/31/49" = some (.civil 2049 11 31) ∧
    (∀ y : Int, y > 50 → expandYear y = 1900 + y) ∧
    (∀ y : Int, y ≤ 50 → expandYear y = 2000 + y) ∧
    (∀ s : String, jsMatch reDateShort s = none → jsMatch reDateLong s = none →
      parseDate s = none) := by
  refine ⟨rfl, rfl, rfl, fun y hy => ?_, fun y hy => ?_, fun s h1 h2 => ?_⟩
  · rw [expandYear, if_pos hy]
  · rw [expandYear, if_neg (not_lt.mpr hy)]
  · by_cases he : s.isEmpty <;> simp [parseDate, he, h1, h2]

/-- C6 witness: the pivot conjuncts at 51 and 49, and the null case at a
concrete unmatched string. -/
theorem C6_parseDate_pivot_and_null_witness :
    parseDate "01/09/25" = some (.civil 2025 0 9) ∧
    expandYear 51 = 1900 + 51 ∧ expandYear 49 = 2000 + 49 ∧
    parseDate "nope" = none :=
  ⟨C6_parseDate_pivot_and_null.1,
   C6_parseDate_pivot_and_null.2.2.2.1 51 (by norm_num),
   C6_parseDate_pivot_and_null.2.2.2.2.1 49 (by norm_num),
   C6_parseDate_pivot_and_null.2.2.2.2.2 "nope" rfl rfl⟩

/-- C7: when no explicit days field matches (so `days` stays `0`) but the
service-period pattern matches and both its captures parse as dates, the
assembler derives `days` as the ceiling of the absolute span in days, a
non-negative integer. -/
theorem C7_days_derived_from_span (text fn s1 s2 : String) (d1 d2 : JSDate)
    (hd : jsMatch reDaysKwh text = none) (hk : jsMatch reKwhDays text = none)
    (hsp : jsMatch reServicePeriod text = some [s1, s2])
    (h1 : parseDate s1 = some d1) (h2 : parseDate s2 = some d2) :
    (extractBillData text fn).servicePeriod.days =
      ((Int.ceil (|msOfDate d2 - msOfDate d1| / 86400000) : ℤ) : ℚ) ∧
    ∃ n : ℕ, (extractBillData text fn).servicePeriod.days = (n : ℚ) := by
  have hdu : daysUsageOf text = (0, 0) := by
    unfold daysUsageOf
    rw [hd, hk]
  have hsd : servicePeriodDatesOf text = (some d1, some d2) := by
    unfold servicePeriodDatesOf
    rw [hsp]
    simp [h1, h2]
  have hday : (extractBillData text fn).servicePeriod.days =
      deriveDays (daysUsageOf text).1 (servicePeriodDatesOf text).1
        (servicePeriodDatesOf text).2 := rfl
  have hnn : 0 ≤ Int.ceil (|msOfDate d2 - msOfDate d1| / (86400000 : ℚ)) :=
    Int.ceil_nonneg (by positivity)
  have hmain : (extractBillData text fn).servicePeriod.days =
      ((Int.ceil (|msOfDate d2 - msOfDate d1| / 86400000) : ℤ) : ℚ) := by
    rw [hday, hdu, hsd]
    simp [deriveDays]
  refine ⟨hmain, (Int.ceil (|msOfDate d2 - msOfDate d1| / (86400000 : ℚ))).toNat, ?_⟩
  rw [hmain]
  exact_mod_cast (Int.toNat_of_nonneg hnn).symm

/-- C7 witness: start 2025-01-09 and end 2025-02-07 with no explicit days
field give 29 days. -/
theorem C7_days_derived_from_span_witness :
    (extractBillData tC7 "c.pdf").servicePeriod.days = 29 := by
  have h := (C7_days_derived_from_span tC7 "c.pdf" "01/09/25" "02/07/25"
    (.civil 2025 0 9) (.civil 2025 1 7) rfl rfl rfl rfl rfl).1
  rw [h]
  have e1 : epochDay 2025 0 9 = 20097 := rfl
  have e2 : epochDay 2025 1 7 = 20126 := rfl
  simp only [msOfDate, e1, e2]
  norm_num

/-- C8: the claim says the record returned by `extractBillData` contains
the document-level field `miscellaneousCharges` defaulting to `0`.  In
the source, the CSV exporter reads that key from every bill record, but
the record literal of `extractBillData` does not define it (and the
function never adds keys), so the access yields `undefined` and
`.toFixed(2)` throws: the code contradicts its own caller. -/
theorem C8_miscellaneousCharges_key_missing :
    "miscellaneousCharges" ∈ csvTotalsKeys ∧
    "miscellaneousCharges" ∉ billTopLevelKeys := by
  constructor
  · decide
  · decide

/-- C9 counterexample: in `"NYSEG JOHN SMITH"` the first pair of two
consecutive all-caps tokens with neither token excluded is
`"JOHN SMITH"` (the claim's prediction), but the extractor leaves the
customer name empty: the `g`-flag scan pairs tokens non-overlappingly, so
after consuming `"NYSEG JOHN"` the lone `"SMITH"` cannot form a pair. -/
theorem C9_counterexample_nonoverlapping_scan :
    specCustomerName tC9 = "JOHN SMITH" ∧
    (extractAccountInfo tC9).customerName = "" :=
  ⟨rfl, rfl⟩

/-- C9 amended: `customerName` is the first match among the pattern's
non-overlapping left-to-right two-token matches whose words all pass the
exclusion filter (and which has exactly two words); the empty string when
no such match exists. -/
theorem C9_first_acceptable_nonoverlapping_match (text : String) :
    (extractAccountInfo text).customerName =
      (((jsMatchAll reName text).map (fun m => m.headD "")).find? nameOk).getD "" := by
  have h : (extractAccountInfo text).customerName =
      firstCustomerName ((jsMatchAll reName text).map (fun m => m.headD "")) := rfl
  rw [h, firstCustomerName_eq_find]

/-- C10: the electricity supply field has a single pattern and no
multi-month fallback: whenever the single-line pattern does not match —
in particular when supply lines appear only in per-month form — the
supply rate and charge remain `0`. -/
theorem C10_elec_supply_no_fallback (text fn : String)
    (h : jsMatch reSupply text = none) :
    (extractBillData text fn).electricity.supplyRate = 0 ∧
    (extractBillData text fn).electricity.supplyCharge = 0 := by
  have hp : (extractBillData text fn).electricity.supplyRate =
      (elecSupplyFields text).1 := rfl
  have hq : (extractBillData text fn).electricity.supplyCharge =
      (elecSupplyFields text).2 := rfl
  rw [hp, hq]
  unfold elecSupplyFields
  rw [h]
  exact ⟨rfl, rfl⟩

/-- C10 witness: a text whose only supply line is in per-month form
leaves both electricity supply fields at `0`. -/
theorem C10_elec_supply_no_fallback_witness :
    (extractBillData tC10 "s.pdf").electricity.supplyRate = 0 ∧
    (extractBillData tC10 "s.pdf").electricity.supplyCharge = 0 :=
  C10_elec_supply_no_fallback tC10 "s.pdf" rfl

end Nyseg

section ScratchTests
open Nyseg

example : countRun .digit "123a".data = 3 := rfl

example :
    jsMatch [.gopen, .a (.plus .digit), .gclose] "ab 12c" = some ["12"] := rfl

example : parseNumber "1,234.56" = 123456 / 100 := by
  simp +decide [parseNumber, parseFloatQ, digitsToNat]; norm_num
example : parseNumber "32.63" = 3263 / 100 := by
  simp +decide [parseNumber, parseFloatQ, digitsToNat]; norm_num
example : reconstructRate "07894" = 7894 / 100000 := by
  simp +decide [reconstructRate, parseFloatQ, digitsToNat]; norm_num
example : reconstructRate "" = 0 := rfl
example : parseNumber "0." = 0 := by
  simp +decide [parseNumber, parseFloatQ, digitsToNat]
example : parseDate "01/09/25" = some (.civil 2025 0 9) := rfl
example : parseDate "12/31/51" = some (.civil 1951 11 31) := rfl
example : parseDate "hello" = none := rfl
example : parseDate "February 11, 2025" = some (.civil 2025 1 11) := rfl
example : epochDay 2025 1 7 - epochDay 2025 0 9 = 29 := rfl

example :
    jsMatch reDelivery "3990 kwh 07894 @ 0. Delivery charge 314.97" =
      some ["3990", "07894", "314.97"] := rfl

example : jsMatch reDelivery "" = none := rfl

example :
    jsMatchAll reDeliveryMonth
      "1297 kwh 07894 @ 0. Delivery charge - Apr 102.39" =
      [["1297", "07894", "102.39"]] := rfl

example :
    jsMatchAll reName "NYSEG JOHN SMITH" = [["NYSEG JOHN"]] := rfl

example :
    (extractAccountInfo "NYSEG JOHN SMITH").customerName = "" := rfl

example :
    (extractBillData "" "a.pdf").electricity.deliveryRate = 0 := rfl

example :
    jsMatch reDelivery
      "5 kwh 000 @ 0. Delivery charge 1 2 kwh 05 @ 0. Delivery charge - Apr 3" =
      some ["5", "000", "1"] := rfl

example :
    jsMatchAll reDeliveryMonth
      "5 kwh 000 @ 0. Delivery charge 1 2 kwh 05 @ 0. Delivery charge - Apr 3" =
      [["2", "05", "3"]] := rfl

example :
    jsMatchAll reGasSupplyMonth "Supply charge 44.2 therm 73822 @ 0. 32.63" = [] := rfl

example :
    jsMatchAll reGasSupplyStd "Supply charge 44.2 therm 73822 @ 0. 32.63" = [] := rfl

example :
    jsMatchAll reGasSupplyMonth "Supply charge - Apr 2 therm 5 @ 0. 3" =
      [["2", "5", "3"]] := rfl

example : jsMatchAll reGasSupplyStd tC4b = [] := rfl

example : jsMatchAll reGasSupplyMonth tC4c = [["2", "000", "3"]] := rfl

example : jsMatchAll reGasSupplyStd tC4c = [["2", "0.5", "4"]] := rfl

example :
    jsMatch reSupply "Supply charge - Apr 1297 kwh 07894 @ 0. 102.39" = none := rfl

example :
    jsMatch reSupply "Supply charge 3990 kwh 08395531 @ 0. 334.98" =
      some ["3990", "08395531", "334.98"] := rfl

example :
    jsMatch reServicePeriod "01/09/25 - 02/07/25" =
      some ["01/09/25", "02/07/25"] := rfl

example : jsMatch reDaysKwh "01/09/25 - 02/07/25" = none := rfl
example : jsMatch reKwhDays "01/09/25 - 02/07/25" = none := rfl

end ScratchTests
